import Mathlib

/-!
Verification of the motor-control core of the MF2103-Embedded repository.

The definitions below are a shallow embedding of the C sources:
  * `src/Motor_Project/Source/controller.c`   (PI controller)
  * `src/Motor_Project/Source/peripherals.c`  (PWM actuator mapper, encoder velocity estimator)

Machine integers are modelled as `Int`/`Nat` with explicit wrap-around
(`% 2^32`, a signed-16-bit wrap for the encoder cast) exactly where the C
code performs modular arithmetic.  All C products are widened to 64 bits
before saturation in the source, so they are exact and are modelled as
exact `Int` products.  C signed division truncates toward zero and is
modelled by `Int.tdiv`.
-/

set_option maxHeartbeats 1000000

namespace MotorCore

/-- Truncating (toward-zero) division: the semantics of C `/` on signed operands. -/
def cdiv (a b : Int) : Int := Int.tdiv a b

/-- Modulus of `uint32_t` arithmetic. -/
def UINT32_MOD : Nat := 4294967296

/-- Wrap-around `uint32_t` subtraction `a - b`, for representatives `a b < UINT32_MOD`. -/
def u32sub (a b : Nat) : Nat := (a + (UINT32_MOD - b % UINT32_MOD)) % UINT32_MOD

/-- Wrap-around `uint32_t` addition. -/
def u32add (a b : Nat) : Nat := (a + b) % UINT32_MOD

/-- Wrap an integer into `int16_t` range: the semantics of a C cast to `int16_t`. -/
def toInt16 (x : Int) : Int := (x + 32768) % 65536 - 32768

/-! ### controller.c : constants and configuration -/

/-- `CTRL_MAX = 0x3FFFFFFF` (controller.c line 16). -/
def CTRL_MAX : Int := 1073741823

/-- `CTRL_MIN = 0xC0000000` as a signed 32-bit value (controller.c line 17). -/
def CTRL_MIN : Int := -1073741824

/-- `Q15_ONE = 32768` (controller.c line 18). -/
def Q15_ONE : Int := 32768

/-- `RPM_SCALE = 4000` (controller.c line 24). -/
def RPM_SCALE : Int := 4000

/-- The tunable `volatile` globals of controller.c (lines 27-41), gathered in a
configuration record so that runs with tuned values can be expressed. -/
structure CtrlConfig where
  Kp : Int
  Ki : Int
  U_PER_RPM : Int
  ERR_DEADBAND_RPM : Int
  INT_WINDOW_RPM : Int
  I_CLAMP : Int
deriving DecidableEq

/-- The initial values of the tunables in controller.c:
`Kp = 1300`, `Ki = 4000`, `U_PER_RPM = 99000`, `ERR_DEADBAND_RPM = 10`,
`INT_WINDOW_RPM = 200`, `I_CLAMP = 300000000`. -/
def defaultCtrlConfig : CtrlConfig :=
  { Kp := 1300, Ki := 4000, U_PER_RPM := 99000,
    ERR_DEADBAND_RPM := 10, INT_WINDOW_RPM := 200, I_CLAMP := 300000000 }

/-- The static state of controller.c (lines 46-50). -/
structure CtrlState where
  integrator : Int
  last_update_ms : Nat
  first_call : Bool
deriving DecidableEq

/-- `Controller_Reset` (controller.c lines 158-164): the state it establishes,
which is also the initial value of the statics. -/
def Controller_Reset : CtrlState :=
  { integrator := 0, last_update_ms := 0, first_call := true }

/-- `sat_ctrl` (controller.c lines 56-61). -/
def sat_ctrl (x : Int) : Int :=
  if x > CTRL_MAX then CTRL_MAX else if x < CTRL_MIN then CTRL_MIN else x

/-- `clamp_q15` (controller.c lines 64-69). -/
def clamp_q15 (x : Int) : Int :=
  if x > 32767 then 32767 else if x < -32768 then -32768 else x

/-- `iabs32` (controller.c lines 72-75). -/
def iabs32 (x : Int) : Int := if x < 0 then -x else x

/-- `clamp_i32` (controller.c lines 78-83). -/
def clamp_i32 (x lo hi : Int) : Int :=
  if x > hi then hi else if x < lo then lo else x

/-- `Controller_PIController` (controller.c lines 87-156), as a pure step
function on the explicit state.  Returns the emitted control value and the
updated state. -/
def Controller_PIController (cfg : CtrlConfig) (s : CtrlState)
    (reference measured : Int) (millisec : Nat) : Int × CtrlState :=
  if s.first_call then
    (0, { integrator := 0, last_update_ms := millisec, first_call := false })
  else
    let now_ms := millisec
    let delta_ms := u32sub now_ms s.last_update_ms
    let s1 : CtrlState := { s with last_update_ms := now_ms }
    if delta_ms = 0 then (0, s1)
    else
      let err0 := reference - measured
      let err_rpm := if iabs32 err0 ≤ cfg.ERR_DEADBAND_RPM then 0 else err0
      let err_q15 := clamp_q15 (cdiv (err_rpm * Q15_ONE) RPM_SCALE)
      let ff := sat_ctrl (cfg.U_PER_RPM * reference)
      let p_term := sat_ctrl (cfg.Kp * err_q15)
      let integrator_candidate :=
        if iabs32 err_rpm ≤ cfg.INT_WINDOW_RPM then
          clamp_i32 (sat_ctrl (s.integrator + cdiv (cfg.Ki * err_q15 * (delta_ms : Int)) 1000))
            (-cfg.I_CLAMP) cfg.I_CLAMP
        else s.integrator
      let ctrl_candidate := ff + p_term + integrator_candidate
      let ctrl_sat := sat_ctrl ctrl_candidate
      let integrator' :=
        if ctrl_sat = ctrl_candidate then integrator_candidate
        else if (ctrl_candidate > CTRL_MAX ∧ err_q15 > 0) ∨
                (ctrl_candidate < CTRL_MIN ∧ err_q15 < 0) then s.integrator
        else integrator_candidate
      (sat_ctrl (ff + p_term + integrator'), { s1 with integrator := integrator' })

/-- Iterate the controller over a list of `(reference, measured, millisec)` inputs. -/
def ctrlRun (cfg : CtrlConfig) (s : CtrlState) : List (Int × Int × Nat) → CtrlState
  | [] => s
  | (r, m, t) :: rest => ctrlRun cfg (Controller_PIController cfg s r m t).2 rest

/-! ### peripherals.c : PWM actuator mapper -/

/-- `CTRL_MAG_MAX = 1 << 30` (peripherals.c line 19). -/
def CTRL_MAG_MAX : Nat := 1073741824

/-- `clamp_ctrl` (peripherals.c lines 53-59). -/
def clamp_ctrl (x : Int) : Int :=
  if x > CTRL_MAX then CTRL_MAX else if x < CTRL_MIN then CTRL_MIN else x

/-- `ctrl_to_counts` (peripherals.c lines 62-79): convert a Q30 control value
to timer counts.  The products are carried out in `uint64_t` in the source and
are exact; the final cast to `uint32_t` and the `top - 1U` expression keep
their `% 2^32` semantics. -/
def ctrl_to_counts (ctrl : Int) (top : Nat) : Nat :=
  let sat := clamp_ctrl ctrl
  let mag : Nat := if sat = CTRL_MIN then CTRL_MAG_MAX else sat.natAbs
  let duty := ((mag * top) >>> 30) % UINT32_MOD
  let lim := (top + (UINT32_MOD - 1)) % UINT32_MOD
  if lim < duty then lim else duty

/-- `Peripheral_PWM_ActuateMotor` (peripherals.c lines 95-115): returns the
pair `(CCR1, CCR2)` written to the PWM compare registers, given the timer
`ARR` register value (the source computes `top = ARR + 1` in `uint32_t`). -/
def Peripheral_PWM_ActuateMotor (control : Int) (arr : Nat) : Nat × Nat :=
  let pwm_top := (arr + 1) % UINT32_MOD
  let duty_counts := ctrl_to_counts control pwm_top
  if control > 0 then (0, duty_counts)
  else if control < 0 then (duty_counts, 0)
  else (0, 0)

/-! ### peripherals.c : encoder velocity estimator -/

/-- `BUF_N = 32` (peripherals.c line 119). -/
def BUF_N : Nat := 32

/-- `ENCODER_COUNTS_PER_REV = ENCODER_PPR * 4 = 2048` (peripherals.c lines 24-25). -/
def ENCODER_COUNTS_PER_REV : Int := 2048

/-- The static state of `Peripheral_Encoder_CalculateVelocity`
(peripherals.c lines 121-137). -/
structure EncState where
  prev_count : Int
  prev_ms : Nat
  delta_count_buf : List Int
  delta_ms_buf : List Nat
  buf_index : Nat
  buf_count : Nat
  sum_delta_count : Int
  sum_delta_ms : Nat
  vel_rpm : Int
deriving DecidableEq

/-- The state established by the first-call initialization branch
(peripherals.c lines 142-156): zeroed history with `(count, ms)` latched. -/
def encInitState (count : Int) (ms : Nat) : EncState :=
  { prev_count := count, prev_ms := ms,
    delta_count_buf := List.replicate 32 0, delta_ms_buf := List.replicate 32 0,
    buf_index := 0, buf_count := 0,
    sum_delta_count := 0, sum_delta_ms := 0, vel_rpm := 0 }

/-- The initial values of the statics (all zero, `prev_ms = 0` is the
uninitialized sentinel). -/
def encReset : EncState := encInitState 0 0

/-- One iteration of the window-trim `while` loop body
(peripherals.c lines 189-199). -/
def encTrimOnce (s : EncState) : EncState :=
  let sdc := s.sum_delta_count - s.delta_count_buf.getD s.buf_index 0
  let sdm := u32sub s.sum_delta_ms (s.delta_ms_buf.getD s.buf_index 0)
  let dcb := s.delta_count_buf.set s.buf_index 0
  let dmb := s.delta_ms_buf.set s.buf_index 0
  let idx := if BUF_N ≤ s.buf_index + 1 then 0 else s.buf_index + 1
  { s with
    delta_count_buf := dcb,
    delta_ms_buf := dmb,
    buf_index := idx,
    buf_count := s.buf_count - 1,
    sum_delta_count := sdc,
    sum_delta_ms := sdm }

/-- Fuel-indexed unrolling of the trim loop.  Each iteration requires
`1 < buf_count` and decreases `buf_count` by one, so `buf_count` is a loop
variant; `encTrim` below supplies it as fuel, and `encTrim_eq` proves the
resulting function satisfies the `while` loop's defining equation. -/
def encTrimAux (window : Nat) : Nat → EncState → EncState
  | 0, s => s
  | fuel + 1, s =>
    if window < s.sum_delta_ms ∧ 1 < s.buf_count then
      encTrimAux window fuel (encTrimOnce s)
    else s

/-- The window-trim `while` loop (peripherals.c lines 189-199). -/
def encTrim (window : Nat) (s : EncState) : EncState :=
  encTrimAux window s.buf_count s

/-- `Peripheral_Encoder_CalculateVelocity` (peripherals.c lines 118-220) as a
pure step function: `window` is the `uint32_t` value of the tunable
`g_vel_window_ms` (initially 40), `count` the signed 16-bit value read from
the encoder counter register, `ms` the millisecond timestamp.  Returns the
velocity in RPM and the updated state.  The write to the debug-only global
`g_vel_raw_rpm` (lines 214-215) has no effect on any state read by the
function and is omitted. -/
def Peripheral_Encoder_CalculateVelocity (window : Nat) (s : EncState)
    (count : Int) (ms : Nat) : Int × EncState :=
  if s.prev_ms = 0 then
    (0, encInitState count ms)
  else
    let delta_ms := u32sub ms s.prev_ms
    let s1 : EncState := { s with prev_ms := ms }
    if delta_ms = 0 then (s.vel_rpm, s1)
    else
      let delta_count := toInt16 (count - s.prev_count)
      let s2 : EncState := { s1 with prev_count := count }
      let sdc0 := s2.sum_delta_count - s2.delta_count_buf.getD s2.buf_index 0
      let sdm0 := u32sub s2.sum_delta_ms (s2.delta_ms_buf.getD s2.buf_index 0)
      let new_dms : Nat := if 65535 < delta_ms then 65535 else delta_ms
      let dcb := s2.delta_count_buf.set s2.buf_index delta_count
      let dmb := s2.delta_ms_buf.set s2.buf_index new_dms
      let sdc := sdc0 + dcb.getD s2.buf_index 0
      let sdm := u32add sdm0 (dmb.getD s2.buf_index 0)
      let idx := if BUF_N ≤ s2.buf_index + 1 then 0 else s2.buf_index + 1
      let bcnt := if s2.buf_count < BUF_N then s2.buf_count + 1 else s2.buf_count
      let s3 : EncState :=
        { s2 with
          delta_count_buf := dcb,
          delta_ms_buf := dmb,
          buf_index := idx,
          buf_count := bcnt,
          sum_delta_count := sdc,
          sum_delta_ms := sdm }
      let s4 := encTrim window s3
      if s4.sum_delta_ms = 0 then (s4.vel_rpm, s4)
      else
        let rpm_num := s4.sum_delta_count * 60000
        let rpm_den := ENCODER_COUNTS_PER_REV * (s4.sum_delta_ms : Int)
        if rpm_den = 0 then (s4.vel_rpm, s4)
        else
          let rpm_est := cdiv rpm_num rpm_den
          (rpm_est, { s4 with vel_rpm := rpm_est })

/-! ### Definitions written from the spec's words, for comparison with the code -/

/-- Written from the spec's words (spec section 4.2 step 6), for comparison:
`vel_filt += (rpm − vel_filt) >> clamp(VEL_IIR_SHIFT, 0, 8)` with `>>` the
arithmetic right shift.  peripherals.c contains no such smoothing step and no
`VEL_IIR_SHIFT` tunable. -/
def spec_vel_iir (vel_filt rpm shift_cfg : Int) : Int :=
  vel_filt + Int.ediv (rpm - vel_filt) (2 ^ (clamp_i32 shift_cfg 0 8).toNat)

/-- Written from the spec's words (spec section 4.4 step 5), for comparison:
`window = max(ABS_INT_WINDOW_RPM, (|ref| × INT_WINDOW_PCT) / 100)`.
controller.c has no such configuration; it compares against the fixed
tunable `INT_WINDOW_RPM`. -/
def spec_int_window (abs_int_window_rpm int_window_pct ref : Int) : Int :=
  max abs_int_window_rpm (cdiv (iabs32 ref * int_window_pct) 100)

/-- The tuning used by the spec's concrete scenario 1 (spec section 8):
`Kp=1000, Ki=0, U_PER_RPM=99000, deadband=10, window=200`, with the
integrator clamp left at its source default. -/
def scenarioCfg : CtrlConfig :=
  { Kp := 1000, Ki := 0, U_PER_RPM := 99000,
    ERR_DEADBAND_RPM := 10, INT_WINDOW_RPM := 200, I_CLAMP := 300000000 }

/-! ### Helper lemmas -/

theorem u32sub_self (t : Nat) : u32sub t t = 0 := by
  unfold u32sub UINT32_MOD
  omega

theorem sat_ctrl_bounds (x : Int) : CTRL_MIN ≤ sat_ctrl x ∧ sat_ctrl x ≤ CTRL_MAX := by
  unfold sat_ctrl CTRL_MIN CTRL_MAX
  split_ifs <;> omega

theorem iabs32_clamp (x i : Int) (hi : 0 ≤ i) : iabs32 (clamp_i32 x (-i) i) ≤ i := by
  unfold clamp_i32 iabs32
  split_ifs <;> omega

theorem encTrimAux_succ (w n : Nat) (s : EncState) :
    encTrimAux w (n + 1) s
      = if w < s.sum_delta_ms ∧ 1 < s.buf_count then encTrimAux w n (encTrimOnce s) else s :=
  rfl

/-- The trim loop does nothing when its guard is false, whatever the fuel. -/
theorem encTrimAux_stop (w : Nat) (s : EncState)
    (h : ¬(w < s.sum_delta_ms ∧ 1 < s.buf_count)) :
    ∀ n, encTrimAux w n s = s
  | 0 => rfl
  | n + 1 => by rw [encTrimAux_succ, if_neg h]

/-- Any fuel at least `buf_count - 1` computes the same trim result. -/
theorem encTrimAux_congr (w : Nat) :
    ∀ (n₁ n₂ : Nat) (s : EncState), s.buf_count ≤ n₁ + 1 → s.buf_count ≤ n₂ + 1 →
      encTrimAux w n₁ s = encTrimAux w n₂ s := by
  intro n₁
  induction n₁ with
  | zero =>
    intro n₂ s h1 h2
    exact (encTrimAux_stop w s (by omega) n₂).symm
  | succ n ih =>
    intro n₂ s h1 h2
    by_cases hc : w < s.sum_delta_ms ∧ 1 < s.buf_count
    · cases n₂ with
      | zero => omega
      | succ m =>
        rw [encTrimAux_succ w n s, encTrimAux_succ w m s, if_pos hc, if_pos hc]
        have hbc : (encTrimOnce s).buf_count = s.buf_count - 1 := rfl
        exact ih m (encTrimOnce s) (by omega) (by omega)
    · exact (encTrimAux_stop w s hc _).trans (encTrimAux_stop w s hc _).symm

/-- `encTrim` satisfies the defining equation of the `while` loop of
peripherals.c lines 189-199: it is the loop's denotation. -/
theorem encTrim_eq (w : Nat) (s : EncState) :
    encTrim w s
      = if w < s.sum_delta_ms ∧ 1 < s.buf_count then encTrim w (encTrimOnce s) else s := by
  unfold encTrim
  by_cases hc : w < s.sum_delta_ms ∧ 1 < s.buf_count
  · rw [if_pos hc]
    obtain ⟨k, hk⟩ : ∃ k, s.buf_count = k + 1 := ⟨s.buf_count - 1, by omega⟩
    rw [hk, encTrimAux_succ, if_pos hc]
    have hbc : (encTrimOnce s).buf_count = s.buf_count - 1 := rfl
    exact encTrimAux_congr w k (encTrimOnce s).buf_count (encTrimOnce s) (by omega) (by omega)
  · rw [if_neg hc]
    exact encTrimAux_stop w s hc _

/-- The trim loop touches only the buffers, index, count and sums. -/
theorem encTrimAux_frame (w : Nat) :
    ∀ (n : Nat) (s : EncState),
      (encTrimAux w n s).prev_ms = s.prev_ms ∧
      (encTrimAux w n s).prev_count = s.prev_count ∧
      (encTrimAux w n s).vel_rpm = s.vel_rpm
  | 0, _ => ⟨rfl, rfl, rfl⟩
  | n + 1, s => by
    rw [encTrimAux_succ]
    split_ifs with h
    · exact encTrimAux_frame w n (encTrimOnce s)
    · exact ⟨rfl, rfl, rfl⟩

theorem encTrim_frame (w : Nat) (s : EncState) :
    (encTrim w s).prev_ms = s.prev_ms ∧
    (encTrim w s).prev_count = s.prev_count ∧
    (encTrim w s).vel_rpm = s.vel_rpm :=
  encTrimAux_frame w s.buf_count s

/-- One controller step keeps the integrator inside `[-I_CLAMP, I_CLAMP]`. -/
theorem pi_integrator_bound (cfg : CtrlConfig) (s : CtrlState) (r m : Int) (t : Nat)
    (hI : 0 ≤ cfg.I_CLAMP) (h : iabs32 s.integrator ≤ cfg.I_CLAMP) :
    iabs32 (Controller_PIController cfg s r m t).2.integrator ≤ cfg.I_CLAMP := by
  simp only [Controller_PIController]
  split_ifs <;> dsimp only <;>
    first
      | simpa [iabs32] using hI
      | exact h
      | exact iabs32_clamp _ _ hI

/-- The emitted control value always lies in `[CTRL_MIN, CTRL_MAX]`. -/
theorem pi_output_bounds (cfg : CtrlConfig) (s : CtrlState) (r m : Int) (t : Nat) :
    CTRL_MIN ≤ (Controller_PIController cfg s r m t).1 ∧
    (Controller_PIController cfg s r m t).1 ≤ CTRL_MAX := by
  simp only [Controller_PIController]
  split_ifs <;> dsimp only <;>
    first
      | exact sat_ctrl_bounds _
      | exact ⟨by norm_num [CTRL_MIN], by norm_num [CTRL_MAX]⟩

theorem ctrlRun_integrator_bound (cfg : CtrlConfig) (hI : 0 ≤ cfg.I_CLAMP) :
    ∀ (l : List (Int × Int × Nat)) (s : CtrlState), iabs32 s.integrator ≤ cfg.I_CLAMP →
      iabs32 (ctrlRun cfg s l).integrator ≤ cfg.I_CLAMP
  | [], _, h => h
  | (r, m, t) :: rest, s, h =>
    ctrlRun_integrator_bound cfg hI rest _ (pi_integrator_bound cfg s r m t hI h)

/-- When the clamped control is `CTRL_MAX`, the duty is `top - 1`. -/
theorem ctrl_to_counts_sat_max (u : Int) (top : Nat) (h1 : 1 ≤ top) (h2 : top ≤ 1073741824)
    (hs : clamp_ctrl u = CTRL_MAX) : ctrl_to_counts u top = top - 1 := by
  have e30 : (2 : Nat) ^ 30 = 1073741824 := by norm_num
  have eabs : (1073741823 : Int).natAbs = 1073741823 := rfl
  have hdiv : 1073741823 * top / 1073741824 = top - 1 := by omega
  simp only [ctrl_to_counts, hs, CTRL_MAX, CTRL_MIN, CTRL_MAG_MAX, UINT32_MOD,
    Nat.shiftRight_eq_div_pow, e30, eabs]
  rw [if_neg (by decide : ¬ (1073741823 : Int) = -1073741824), hdiv]
  split_ifs <;> omega

/-- When the clamped control is `CTRL_MIN`, the duty is also `top - 1`
(the raw quotient is `top`, clamped down by the `duty > top - 1` guard). -/
theorem ctrl_to_counts_sat_min (u : Int) (top : Nat) (h1 : 1 ≤ top) (h2 : top ≤ 1073741824)
    (hs : clamp_ctrl u = CTRL_MIN) : ctrl_to_counts u top = top - 1 := by
  have e30 : (2 : Nat) ^ 30 = 1073741824 := by norm_num
  have hdiv : 1073741824 * top / 1073741824 = top := by omega
  simp only [ctrl_to_counts, hs, CTRL_MIN, CTRL_MAG_MAX, UINT32_MOD,
    Nat.shiftRight_eq_div_pow, e30]
  rw [if_pos trivial, hdiv]
  split_ifs <;> omega

/-- In the interior region the clamp is the identity and the duty depends on
`u` only through `|u|`. -/
theorem ctrl_to_counts_neg_mid (u : Int) (top : Nat)
    (hlo : (-1073741824 : Int) < u) (hhi : u < 1073741824) :
    ctrl_to_counts u top = ctrl_to_counts (-u) top := by
  have hcu : clamp_ctrl u = u := by
    unfold clamp_ctrl CTRL_MAX CTRL_MIN
    split_ifs <;> omega
  have hcn : clamp_ctrl (-u) = -u := by
    unfold clamp_ctrl CTRL_MAX CTRL_MIN
    split_ifs <;> omega
  simp only [ctrl_to_counts, hcu, hcn]
  rw [if_neg (by simp only [CTRL_MIN]; omega : ¬ u = CTRL_MIN),
      if_neg (by simp only [CTRL_MIN]; omega : ¬ -u = CTRL_MIN),
      Int.natAbs_neg]

/-- Duty symmetry for every control value, given a realistic timer period
(`top ≤ 2^30`). -/
theorem ctrl_to_counts_neg (u : Int) (top : Nat) (h1 : 1 ≤ top) (h2 : top ≤ 1073741824) :
    ctrl_to_counts u top = ctrl_to_counts (-u) top := by
  by_cases hbig : (1073741823 : Int) < u
  · have ha : clamp_ctrl u = CTRL_MAX := by
      unfold clamp_ctrl CTRL_MAX CTRL_MIN
      split_ifs <;> omega
    have hb : clamp_ctrl (-u) = CTRL_MIN := by
      unfold clamp_ctrl CTRL_MAX CTRL_MIN
      split_ifs <;> omega
    rw [ctrl_to_counts_sat_max u top h1 h2 ha, ctrl_to_counts_sat_min (-u) top h1 h2 hb]
  · by_cases hsmall : u ≤ -1073741824
    · have ha : clamp_ctrl u = CTRL_MIN := by
        unfold clamp_ctrl CTRL_MAX CTRL_MIN
        split_ifs <;> omega
      have hb : clamp_ctrl (-u) = CTRL_MAX := by
        unfold clamp_ctrl CTRL_MAX CTRL_MIN
        split_ifs <;> omega
      rw [ctrl_to_counts_sat_min u top h1 h2 ha, ctrl_to_counts_sat_max (-u) top h1 h2 hb]
    · exact ctrl_to_counts_neg_mid u top (by omega) (by omega)

/-- The clamped duty never exceeds `top - 1 = ARR`. -/
theorem ctrl_to_counts_le (u : Int) (top : Nat) (h1 : 1 ≤ top) (h2 : top ≤ 1073741824) :
    ctrl_to_counts u top ≤ top - 1 := by
  simp only [ctrl_to_counts, UINT32_MOD]
  split_ifs <;> omega

/-! ### Claim C1 -/

/-- C1, counterexample.  The claim says a duplicate tick (`now_ms` equal to the
stored `last_update_ms`) returns the previously emitted control value, so two
consecutive calls with the same `now_ms` return the same value.  In the source
(controller.c line 105) the duplicate-tick guard is `return 0`, not a replay of
the previous output: after reset, the call at `t = 10` emits `219299200`, and
repeating the call at `t = 10` emits `0`, a different value. -/
theorem C1_counterexample :
    (Controller_PIController defaultCtrlConfig
       (Controller_PIController defaultCtrlConfig Controller_Reset 2000 0 0).2
       2000 0 10).1 = 219299200 ∧
    (Controller_PIController defaultCtrlConfig
       (Controller_PIController defaultCtrlConfig
         (Controller_PIController defaultCtrlConfig Controller_Reset 2000 0 0).2
         2000 0 10).2
       2000 0 10).1 = 0 ∧
    (219299200 : Int) ≠ 0 := by decide

/-- C1 (amended): with `first_call` already cleared, a call whose `*millisec`
equals the stored `last_update_ms` (duplicate tick, `delta_ms = 0`) returns 0
— not the previously emitted value — and leaves the whole controller state,
the integrator included, unchanged; hence two consecutive duplicate-tick calls
both return 0. -/
theorem C1_duplicate_tick_returns_zero (cfg : CtrlConfig) (s : CtrlState) (r m : Int)
    (h : s.first_call = false) :
    Controller_PIController cfg s r m s.last_update_ms = (0, s) := by
  cases s with
  | mk i l f =>
    subst h
    simp [Controller_PIController, u32sub_self]

/-- C1 witness: the duplicate-tick theorem evaluated at a concrete state. -/
theorem C1_witness :
    Controller_PIController defaultCtrlConfig
      { integrator := 777, last_update_ms := 100, first_call := false } 2000 0 100
      = (0, { integrator := 777, last_update_ms := 100, first_call := false }) :=
  C1_duplicate_tick_returns_zero defaultCtrlConfig
    { integrator := 777, last_update_ms := 100, first_call := false } 2000 0 rfl

/-! ### Claim C2 -/

/-- C2, counterexample.  The claim bounds the returned value by
`|pi(...)| ≤ 2^30 − 1`, but `sat_ctrl` saturates to `CTRL_MIN = −2^30`
(controller.c lines 17, 58-59), whose absolute value is `2^30`: from reset,
with the source's default tuning, `pi(−20000, 0, 0)` then `pi(−20000, 0, 10)`
returns exactly `−2^30 = −1073741824`. -/
theorem C2_counterexample :
    (Controller_PIController defaultCtrlConfig
       (Controller_PIController defaultCtrlConfig Controller_Reset (-20000) 0 0).2
       (-20000) 0 10).1 = -1073741824 ∧
    ¬ iabs32 (Controller_PIController defaultCtrlConfig
        (Controller_PIController defaultCtrlConfig Controller_Reset (-20000) 0 0).2
        (-20000) 0 10).1 ≤ 1073741823 := by decide

/-- C2 (amended): for every configuration with `0 ≤ I_CLAMP`, every sequence of
calls starting from `Controller_Reset` and all integer reference/measured
inputs and timestamps, the value returned by `Controller_PIController` lies in
`[CTRL_MIN, CTRL_MAX] = [−2^30, 2^30 − 1]` (so its absolute value is at most
`2^30`, with `−2^30` reachable), and after each call the integrator's absolute
value is at most `I_CLAMP`. -/
theorem C2_output_range_and_integrator_clamp (cfg : CtrlConfig)
    (pre : List (Int × Int × Nat)) (r m : Int) (t : Nat) (hI : 0 ≤ cfg.I_CLAMP) :
    CTRL_MIN ≤ (Controller_PIController cfg (ctrlRun cfg Controller_Reset pre) r m t).1 ∧
    (Controller_PIController cfg (ctrlRun cfg Controller_Reset pre) r m t).1 ≤ CTRL_MAX ∧
    iabs32 (Controller_PIController cfg (ctrlRun cfg Controller_Reset pre) r m t).2.integrator
      ≤ cfg.I_CLAMP := by
  refine ⟨(pi_output_bounds cfg _ r m t).1, (pi_output_bounds cfg _ r m t).2, ?_⟩
  apply pi_integrator_bound cfg _ r m t hI
  apply ctrlRun_integrator_bound cfg hI
  simpa [Controller_Reset, iabs32] using hI

/-- C2 witness: the bounds theorem evaluated after a concrete two-call prefix. -/
theorem C2_witness :
    CTRL_MIN ≤ (Controller_PIController defaultCtrlConfig
      (ctrlRun defaultCtrlConfig Controller_Reset [(2000, 0, 0), (2000, 100, 10)])
      2000 500 20).1 ∧
    (Controller_PIController defaultCtrlConfig
      (ctrlRun defaultCtrlConfig Controller_Reset [(2000, 0, 0), (2000, 100, 10)])
      2000 500 20).1 ≤ CTRL_MAX ∧
    iabs32 (Controller_PIController defaultCtrlConfig
      (ctrlRun defaultCtrlConfig Controller_Reset [(2000, 0, 0), (2000, 100, 10)])
      2000 500 20).2.integrator ≤ defaultCtrlConfig.I_CLAMP :=
  C2_output_range_and_integrator_clamp defaultCtrlConfig [(2000, 0, 0), (2000, 100, 10)]
    2000 500 20 (by decide)

/-! ### Claim C6 -/

/-- C6: for all inputs, the first call to `Controller_PIController` after
`Controller_Reset` returns exactly 0 and latches `last_update_ms = *millisec`
with `integrator = 0`; and the first call to
`Peripheral_Encoder_CalculateVelocity` after reset (`prev_ms = 0`) returns
exactly 0 and latches the initial `(count, now_ms)` with all history zeroed. -/
theorem C6_first_call_returns_zero :
    (∀ (cfg : CtrlConfig) (s : CtrlState) (r m : Int) (t : Nat), s.first_call = true →
       Controller_PIController cfg s r m t
         = (0, { integrator := 0, last_update_ms := t, first_call := false })) ∧
    (∀ (w : Nat) (s : EncState) (c : Int) (t : Nat), s.prev_ms = 0 →
       Peripheral_Encoder_CalculateVelocity w s c t = (0, encInitState c t)) := by
  constructor
  · intro cfg s r m t h
    simp [Controller_PIController, h]
  · intro w s c t h
    simp only [Peripheral_Encoder_CalculateVelocity]
    rw [if_pos h]

/-- C6 witness: both first-call statements evaluated at concrete inputs. -/
theorem C6_witness :
    Controller_PIController defaultCtrlConfig Controller_Reset 5 7 123
      = (0, { integrator := 0, last_update_ms := 123, first_call := false }) ∧
    Peripheral_Encoder_CalculateVelocity 40 encReset 9 55 = (0, encInitState 9 55) :=
  ⟨C6_first_call_returns_zero.1 defaultCtrlConfig Controller_Reset 5 7 123 rfl,
   C6_first_call_returns_zero.2 40 encReset 9 55 rfl⟩

/-! ### Claim C3 -/

/-- C3: for every int32 control `u` (and a timer period with
`top = ARR + 1 ≤ 2^30`, which covers the 16-bit hardware timer), the actuator
writes a duty in `[0, ARR]` with at least one compare register zero;
if `u > 0` then `CCR1 = 0` and `CCR2 = duty(u)`, if `u < 0` then
`CCR1 = duty(|u|)` and `CCR2 = 0`, and if `u = 0` both are 0. -/
theorem C3_actuator_mapping (u : Int) (arr : Nat) (harr : arr + 1 ≤ 1073741824) :
    (Peripheral_PWM_ActuateMotor u arr).1 ≤ arr ∧
    (Peripheral_PWM_ActuateMotor u arr).2 ≤ arr ∧
    ((Peripheral_PWM_ActuateMotor u arr).1 = 0 ∨ (Peripheral_PWM_ActuateMotor u arr).2 = 0) ∧
    (0 < u → Peripheral_PWM_ActuateMotor u arr = (0, ctrl_to_counts u (arr + 1))) ∧
    (u < 0 → Peripheral_PWM_ActuateMotor u arr = (ctrl_to_counts (iabs32 u) (arr + 1), 0)) ∧
    (u = 0 → Peripheral_PWM_ActuateMotor u arr = (0, 0)) := by
  have htop : (arr + 1) % UINT32_MOD = arr + 1 := by
    unfold UINT32_MOD
    omega
  have hle := ctrl_to_counts_le u (arr + 1) (by omega) harr
  simp only [Peripheral_PWM_ActuateMotor, htop]
  rcases lt_trichotomy u 0 with hu | hu | hu
  · rw [if_neg (by omega : ¬ u > 0), if_pos hu]
    have hneg : iabs32 u = -u := by
      unfold iabs32
      rw [if_pos hu]
    dsimp only
    exact ⟨by omega, by omega, Or.inr rfl,
      fun h => absurd h (by omega),
      fun _ => by rw [hneg, ctrl_to_counts_neg u (arr + 1) (by omega) harr],
      fun h => absurd h (by omega)⟩
  · subst hu
    rw [if_neg (by omega : ¬ (0 : Int) > 0), if_neg (by omega : ¬ (0 : Int) < 0)]
    dsimp only
    exact ⟨by omega, by omega, Or.inl rfl,
      fun h => absurd h (by omega),
      fun h => absurd h (by omega),
      fun _ => rfl⟩
  · rw [if_pos hu]
    dsimp only
    exact ⟨by omega, by omega, Or.inl rfl,
      fun _ => rfl,
      fun h => absurd h (by omega),
      fun h => absurd h (by omega)⟩

/-- C3 witness: the mapping theorem evaluated at `u = -3`, `ARR = 999`. -/
theorem C3_witness :
    (Peripheral_PWM_ActuateMotor (-3) 999).1 ≤ 999 ∧
    (Peripheral_PWM_ActuateMotor (-3) 999).2 ≤ 999 ∧
    ((Peripheral_PWM_ActuateMotor (-3) 999).1 = 0 ∨ (Peripheral_PWM_ActuateMotor (-3) 999).2 = 0) ∧
    (0 < (-3 : Int) → Peripheral_PWM_ActuateMotor (-3) 999 = (0, ctrl_to_counts (-3) 1000)) ∧
    ((-3 : Int) < 0 → Peripheral_PWM_ActuateMotor (-3) 999 = (ctrl_to_counts (iabs32 (-3)) 1000, 0)) ∧
    ((-3 : Int) = 0 → Peripheral_PWM_ActuateMotor (-3) 999 = (0, 0)) :=
  C3_actuator_mapping (-3) 999 (by norm_num)

/-! ### Claim C8 -/

/-- C8: the duty magnitude computed by the actuator is symmetric,
`duty(u) = duty(−u)` for `u ≠ CTRL_MIN`, and `u = CTRL_MIN` yields
`duty = ARR` (for a timer period with `top = ARR + 1 ≤ 2^30`). -/
theorem C8_duty_symmetry (u : Int) (arr : Nat) (harr : arr + 1 ≤ 1073741824) :
    (u ≠ CTRL_MIN → ctrl_to_counts u (arr + 1) = ctrl_to_counts (-u) (arr + 1)) ∧
    ctrl_to_counts CTRL_MIN (arr + 1) = arr := by
  constructor
  · intro _
    exact ctrl_to_counts_neg u (arr + 1) (by omega) harr
  · have hs : clamp_ctrl CTRL_MIN = CTRL_MIN := by
      unfold clamp_ctrl CTRL_MAX CTRL_MIN
      split_ifs <;> omega
    have h := ctrl_to_counts_sat_min CTRL_MIN (arr + 1) (by omega) harr hs
    omega

/-- C8 witness: duty symmetry at `u = 5`, `ARR = 999`, and the `CTRL_MIN`
duty at the same period. -/
theorem C8_witness :
    ctrl_to_counts 5 1000 = ctrl_to_counts (-5) 1000 ∧
    ctrl_to_counts CTRL_MIN 1000 = 999 :=
  ⟨(C8_duty_symmetry 5 999 (by norm_num)).1 (by decide),
   (C8_duty_symmetry 5 999 (by norm_num)).2⟩

/-! ### Claim C9 -/

/-- C9: from `Controller_Reset` with `Kp=1000, Ki=0, U_PER_RPM=99000,
ERR_DEADBAND_RPM=10, INT_WINDOW_RPM=200` (and `RPM_SCALE = 4000` fixed in the
source), `pi(2000, 0, 0)` returns 0, and the following `pi(2000, 0, 10)`
returns exactly `214384000` with the integrator left at 0. -/
theorem C9_scenario :
    Controller_PIController scenarioCfg Controller_Reset 2000 0 0
      = (0, { integrator := 0, last_update_ms := 0, first_call := false }) ∧
    (Controller_PIController scenarioCfg
       { integrator := 0, last_update_ms := 0, first_call := false } 2000 0 10).1
      = 214384000 ∧
    (Controller_PIController scenarioCfg
       { integrator := 0, last_update_ms := 0, first_call := false } 2000 0 10).2.integrator
      = 0 := by decide

/-! ### Claim C4 -/

/-- C4, counterexample.  The claim says the estimator smooths the windowed
estimate with `vel_filt += (rpm − vel_filt) >> clamp(VEL_IIR_SHIFT, 0, 8)` and
returns the smoothed value rather than the raw windowed estimate.  The source
(peripherals.c lines 217-219, "Rolling average output (no extra IIR
smoothing)") assigns `vel_rpm = rpm_est` directly and has no `VEL_IIR_SHIFT`:
on a concrete run the returned value is exactly the raw windowed estimate
`(100 × 60000) / (2048 × 10) = 292`, which differs from the claimed smoothed
output for every effective shift 1..8 (previous `vel_filt = 0`). -/
theorem C4_counterexample :
    (Peripheral_Encoder_CalculateVelocity 40
       (Peripheral_Encoder_CalculateVelocity 40 encReset 0 1000).2 100 1010).1 = 292 ∧
    cdiv (100 * 60000) (ENCODER_COUNTS_PER_REV * 10) = 292 ∧
    spec_vel_iir 0 292 1 ≠ 292 ∧ spec_vel_iir 0 292 2 ≠ 292 ∧
    spec_vel_iir 0 292 3 ≠ 292 ∧ spec_vel_iir 0 292 4 ≠ 292 ∧
    spec_vel_iir 0 292 5 ≠ 292 ∧ spec_vel_iir 0 292 6 ≠ 292 ∧
    spec_vel_iir 0 292 7 ≠ 292 ∧ spec_vel_iir 0 292 8 ≠ 292 := by decide

/-- C4 (amended): on every non-first, non-duplicate call whose post-trim
window time is nonzero, the estimator returns the raw windowed rolling
average `rpm_est = (sum_delta_count × 60000) / (counts_per_rev × sum_delta_ms)`
— with no IIR smoothing applied — and stores it in `vel_rpm`. -/
theorem C4_windowed_estimate_no_iir (w : Nat) (s : EncState) (c : Int) (t : Nat)
    (h0 : s.prev_ms ≠ 0) (hδ : u32sub t s.prev_ms ≠ 0)
    (hs : (Peripheral_Encoder_CalculateVelocity w s c t).2.sum_delta_ms ≠ 0) :
    (Peripheral_Encoder_CalculateVelocity w s c t).1
      = cdiv ((Peripheral_Encoder_CalculateVelocity w s c t).2.sum_delta_count * 60000)
          (ENCODER_COUNTS_PER_REV
            * ((Peripheral_Encoder_CalculateVelocity w s c t).2.sum_delta_ms : Int)) ∧
    (Peripheral_Encoder_CalculateVelocity w s c t).2.vel_rpm
      = (Peripheral_Encoder_CalculateVelocity w s c t).1 := by
  simp only [Peripheral_Encoder_CalculateVelocity, ENCODER_COUNTS_PER_REV] at hs ⊢
  rw [if_neg h0, if_neg hδ] at hs ⊢
  split_ifs at hs ⊢ <;>
    first
      | exact ⟨rfl, rfl⟩
      | (dsimp only at hs; omega)

/-- C4 witness: the amended theorem evaluated on the concrete two-call run. -/
theorem C4_witness :
    (Peripheral_Encoder_CalculateVelocity 40
       (Peripheral_Encoder_CalculateVelocity 40 encReset 0 1000).2 100 1010).1
      = cdiv ((Peripheral_Encoder_CalculateVelocity 40
            (Peripheral_Encoder_CalculateVelocity 40 encReset 0 1000).2 100 1010).2.sum_delta_count
            * 60000)
          (ENCODER_COUNTS_PER_REV
            * ((Peripheral_Encoder_CalculateVelocity 40
                (Peripheral_Encoder_CalculateVelocity 40 encReset 0 1000).2
                100 1010).2.sum_delta_ms : Int)) ∧
    (Peripheral_Encoder_CalculateVelocity 40
       (Peripheral_Encoder_CalculateVelocity 40 encReset 0 1000).2 100 1010).2.vel_rpm
      = (Peripheral_Encoder_CalculateVelocity 40
          (Peripheral_Encoder_CalculateVelocity 40 encReset 0 1000).2 100 1010).1 :=
  C4_windowed_estimate_no_iir 40 (Peripheral_Encoder_CalculateVelocity 40 encReset 0 1000).2
    100 1010 (by decide) (by decide) (by decide)

/-! ### Claim C5 -/

/-- C5, counterexample.  The claim gates integration by
`window = max(ABS_INT_WINDOW_RPM, (|ref| × INT_WINDOW_PCT) / 100)`; no such
configuration exists in controller.c, which compares `|err|` against the
fixed tunable `INT_WINDOW_RPM = 200` (line 128).  Both directions fail at
concrete inputs: with claimed config `(A, PCT) = (0, 0)` the window is 0 yet
the code integrates at `|err| = 100` (integrator becomes 32760 ≠ 0); with
`(A, PCT) = (0, 100)` and `ref = 1000` the window is 1000 yet the code
freezes at `|err| = 300` (integrator stays 0 although the increment `di`
would be nonzero). -/
theorem C5_counterexample :
    ((Controller_PIController defaultCtrlConfig
        { integrator := 0, last_update_ms := 0, first_call := false } 1000 900 10).2.integrator
       = 32760 ∧
     spec_int_window 0 0 1000 < iabs32 (1000 - 900)) ∧
    ((Controller_PIController defaultCtrlConfig
        { integrator := 0, last_update_ms := 0, first_call := false } 1000 700 10).2.integrator
       = 0 ∧
     iabs32 (1000 - 700) ≤ spec_int_window 0 100 1000 ∧
     cdiv (defaultCtrlConfig.Ki * clamp_q15 (cdiv ((1000 - 700) * Q15_ONE) RPM_SCALE) * 10) 1000
       ≠ 0) := by decide

/-- C5 (amended): on every non-first, non-duplicate call, the integration
gate is the fixed threshold `INT_WINDOW_RPM`, independent of the reference:
if `|err| > INT_WINDOW_RPM` (after the deadband) the integrator is frozen at
its previous value, and if `|err| ≤ INT_WINDOW_RPM` and the candidate sum
does not saturate, the committed integrator is the clamped update
`clamp(sat(integrator + di), −I_CLAMP, I_CLAMP)`. -/
theorem C5_fixed_window (cfg : CtrlConfig) (s : CtrlState) (r m : Int) (t : Nat)
    (hf : s.first_call = false) (hδ : u32sub t s.last_update_ms ≠ 0)
    (err_rpm : Int)
    (herr : err_rpm = if iabs32 (r - m) ≤ cfg.ERR_DEADBAND_RPM then 0 else r - m)
    (cand : Int)
    (hcand : cand = if iabs32 err_rpm ≤ cfg.INT_WINDOW_RPM then
        clamp_i32 (sat_ctrl (s.integrator
            + cdiv (cfg.Ki * clamp_q15 (cdiv (err_rpm * Q15_ONE) RPM_SCALE)
                * ((u32sub t s.last_update_ms : Nat) : Int)) 1000))
          (-cfg.I_CLAMP) cfg.I_CLAMP
      else s.integrator) :
    (cfg.INT_WINDOW_RPM < iabs32 err_rpm →
       (Controller_PIController cfg s r m t).2.integrator = s.integrator) ∧
    (sat_ctrl (sat_ctrl (cfg.U_PER_RPM * r)
          + sat_ctrl (cfg.Kp * clamp_q15 (cdiv (err_rpm * Q15_ONE) RPM_SCALE)) + cand)
        = sat_ctrl (cfg.U_PER_RPM * r)
          + sat_ctrl (cfg.Kp * clamp_q15 (cdiv (err_rpm * Q15_ONE) RPM_SCALE)) + cand →
       (Controller_PIController cfg s r m t).2.integrator = cand) := by
  subst herr hcand
  simp only [Controller_PIController, hf, Bool.false_eq_true, if_false]
  rw [if_neg hδ]
  dsimp only
  constructor
  · intro hw
    rw [if_neg (not_le.mpr hw)]
    split_ifs <;> rfl
  · intro hns
    rw [if_pos hns]

/-- C5 witness: the amended theorem applied inside the window at a concrete
state, committing the clamped update `32760`. -/
theorem C5_witness :
    (Controller_PIController defaultCtrlConfig
       { integrator := 0, last_update_ms := 0, first_call := false } 1000 900 10).2.integrator
      = 32760 :=
  (C5_fixed_window defaultCtrlConfig
    { integrator := 0, last_update_ms := 0, first_call := false } 1000 900 10
    rfl (by decide) 100 (by decide) 32760 (by decide)).2 (by decide)

/-! ### Claim C7 -/

/-- C7: the estimator's `delta_count` is the signed-16-bit difference
`(i16)(cnt − prev_count)`: it is congruent to the true difference modulo
`2^16` and lies in `[−32768, 32767]`, so counter wrap-around is handled; in
particular a step from `+32760` to `−32760` yields `delta_count = +16`, as
observed in the window sum of a concrete run. -/
theorem C7_encoder_wrap_delta :
    (∀ cnt prev : Int,
       (toInt16 (cnt - prev) - (cnt - prev)) % 65536 = 0 ∧
       -32768 ≤ toInt16 (cnt - prev) ∧ toInt16 (cnt - prev) ≤ 32767) ∧
    toInt16 ((-32760) - 32760) = 16 ∧
    (Peripheral_Encoder_CalculateVelocity 40
       (Peripheral_Encoder_CalculateVelocity 40 encReset 32760 100).2
       (-32760) 110).2.sum_delta_count = 16 := by
  refine ⟨?_, by decide, by decide⟩
  intro cnt prev
  unfold toInt16
  refine ⟨by omega, by omega, by omega⟩

/-! ### Claim C10 -/

/-- C10: for every initialized estimator state (`prev_ms ≠ 0`, stored as a
`uint32_t`), a call at `millisec = 0` — the value the 32-bit timer wraps to —
stores 0 into `prev_ms`, so the next call hits the `prev_ms == 0` sentinel
and is treated as a first call: it returns 0 and resets the ring buffer,
running sums and stored velocity, discarding the window history; likewise a
first call at `millisec = 0` leaves `prev_ms = 0`, never latching
initialization. -/
theorem C10_timer_wrap_reinit :
    (∀ (w : Nat) (s : EncState) (c : Int), s.prev_ms ≠ 0 → s.prev_ms < UINT32_MOD →
       (Peripheral_Encoder_CalculateVelocity w s c 0).2.prev_ms = 0) ∧
    (∀ (w : Nat) (s : EncState) (c : Int) (t : Nat), s.prev_ms = 0 →
       Peripheral_Encoder_CalculateVelocity w s c t = (0, encInitState c t)) ∧
    (∀ (w : Nat) (s : EncState) (c : Int), s.prev_ms = 0 →
       (Peripheral_Encoder_CalculateVelocity w s c 0).2.prev_ms = 0) := by
  have hinit : ∀ (w : Nat) (s : EncState) (c : Int) (t : Nat), s.prev_ms = 0 →
      Peripheral_Encoder_CalculateVelocity w s c t = (0, encInitState c t) := by
    intro w s c t h
    simp only [Peripheral_Encoder_CalculateVelocity]
    rw [if_pos h]
  refine ⟨?_, hinit, fun w s c h => by rw [hinit w s c 0 h]; rfl⟩
  intro w s c h0 hlt
  have hδ : u32sub 0 s.prev_ms ≠ 0 := by
    unfold u32sub UINT32_MOD at *
    omega
  simp only [Peripheral_Encoder_CalculateVelocity]
  rw [if_neg h0, if_neg hδ]
  split_ifs <;> (dsimp only; rw [(encTrim_frame _ _).1])

/-- C10 witness: the wrap statements evaluated on concrete states. -/
theorem C10_witness :
    (Peripheral_Encoder_CalculateVelocity 40
       (Peripheral_Encoder_CalculateVelocity 40 encReset 0 1000).2 0 0).2.prev_ms = 0 ∧
    Peripheral_Encoder_CalculateVelocity 40 encReset 3 7 = (0, encInitState 3 7) ∧
    (Peripheral_Encoder_CalculateVelocity 40 encReset 4 0).2.prev_ms = 0 :=
  ⟨C10_timer_wrap_reinit.1 40 (Peripheral_Encoder_CalculateVelocity 40 encReset 0 1000).2 0
     (by decide) (by decide),
   C10_timer_wrap_reinit.2.1 40 encReset 3 7 rfl,
   C10_timer_wrap_reinit.2.2 40 encReset 4 rfl⟩

end MotorCore
